import Mathlib

/-!
Verification of the pyDash host-metrics sampler (`app.py`).

A shallow embedding of the backend logic of `app.py`: the rate cache
(`io_cache`), the process sampler (`get_processes`), the system snapshot
(`get_system_stats`), the GPU probe (the `nvidia-smi` parsing blocks) and
`terminate_process`.

Modelling conventions:
* Python `float` values (timestamps, percentages, rates) are modelled as
  exact rationals `ℚ`; Python `int` values (pids, byte counters) as `Int`.
* Python dicts keyed by pid are modelled as insertion-ordered association
  lists (`Dict α`): updating an existing key keeps its position, a new key
  is appended at the end, exactly as a Python dict iterates.
* The process enumeration `psutil.process_iter(...)` is an input: a list of
  `Option PInfo`, where `none` stands for an iteration item whose access
  raised `NoSuchProcess`/`AccessDenied`/`ZombieProcess` (caught and skipped
  by the loop).
* External effects (`shutil.which('nvidia-smi')`, the three `nvidia-smi`
  invocations, `psutil.cpu_count()`, `time.time()`) are inputs packaged in
  environment structures; a tool invocation is `Except Unit String`
  (`.error` = the call raised, `.ok out` = it returned `out`).
* `list.sort(key=..., reverse=True)` is Python's stable sort in descending
  key order; it is modelled by `List.insertionSort` with the relation
  "sort value of the left argument is at least that of the right", which is
  stable in the same way.
* Python's `int(...)`/`float(...)` string conversions are modelled on the
  decimal forms relevant here (optional sign, digits, optional fraction for
  `float`), returning `none` where Python raises `ValueError`.
-/

namespace PyDash

/-- Insertion-ordered association list standing for a Python dict with int keys. -/
abbrev Dict (α : Type) := List (Int × α)

/-- Lookup `d[k]` / `k in d`: first (and only) binding of `k`, if any. -/
def dictLookup {α : Type} : Dict α → Int → Option α
  | [], _ => none
  | (k, v) :: rest, p => if k = p then some v else dictLookup rest p

/-- Assignment `d[k] = v`: overwrite in place when the key exists, append otherwise. -/
def dictInsert {α : Type} : Dict α → Int → α → Dict α
  | [], p, e => [(p, e)]
  | (k, v) :: rest, p, e =>
    if k = p then (p, e) :: rest else (k, v) :: dictInsert rest p e

/-- The comprehension `{k: v for k, v in d.items() if q(k, v)}`: order-preserving filter. -/
def dictFilter {α : Type} (q : Int × α → Bool) : Dict α → Dict α
  | [] => []
  | kv :: rest => if q kv then kv :: dictFilter q rest else dictFilter q rest

/-- One entry of `io_cache`: `{'bytes': total_bytes, 'time': timestamp}`. -/
structure CacheEntry where
  bytes : Int
  time : ℚ
deriving DecidableEq, Repr

/-- The cache `io_cache`: pid → last observed cumulative I/O bytes and timestamp. -/
abbrev IoCache := Dict CacheEntry

/-- Lines 171–184 of `app.py`, the rate-cache observation step, for a process
whose `io_counters` are present: given the cache, the pid, the current
cumulative byte count `total_io = read_bytes + write_bytes` and the current
timestamp, return the computed `io_rate` and the updated cache. -/
def io_rate_update (cache : IoCache) (pid : Int) (total_io : Int) (now : ℚ) :
    ℚ × IoCache :=
  let io_rate : ℚ :=
    match dictLookup cache pid with
    | some prev =>
      if 0 < now - prev.time then ((total_io - prev.bytes : Int) : ℚ) / (now - prev.time)
      else 0
    | none => 0
  (io_rate, dictInsert cache pid ⟨total_io, now⟩)

/-- The `io_counters` named tuple (the two fields the code reads). -/
structure IoCounters where
  read_bytes : Int
  write_bytes : Int
deriving DecidableEq, Repr

/-- The dict `proc.info` as fetched by `process_iter` for one live process. -/
structure PInfo where
  pid : Int
  name : String
  cpu_percent : Option ℚ
  memory_percent : Option ℚ
  io_counters : Option IoCounters
deriving DecidableEq, Repr

/-- The per-process dict after the loop body added `disk_io` and `gpu_memory`
and normalised `cpu_percent`. -/
structure ProcOut where
  pid : Int
  name : String
  cpu_percent : Option ℚ
  memory_percent : Option ℚ
  io_counters : Option IoCounters
  disk_io : ℚ
  gpu_memory : ℚ
deriving DecidableEq, Repr

/-- The test `pinfo['name'] in ('System Idle Process', 'Idle')`. -/
def isIdleName (n : String) : Bool :=
  n == "System Idle Process" || n == "Idle"

/-! ## Python string primitives used by the GPU probe -/

/-- Whitespace characters recognised by Python's `str.strip()` / numeric
conversions (the ASCII ones; the tool output contains no exotic whitespace). -/
def pyWs (c : Char) : Bool :=
  c == ' ' || c == '\t' || c == '\n' || c == '\r' || c == '\x0b' || c == '\x0c'

/-- Python `s.strip()`. -/
def pyStrip (s : String) : String :=
  String.mk (((s.data.dropWhile pyWs).reverse.dropWhile pyWs).reverse)

/-- Python `l.split(sep)` on the character list: every occurrence of `sep` separates,
empty pieces are kept, the empty input gives one empty piece — Python's
`str.split` with an explicit separator. -/
def splitChar (sep : Char) : List Char → List (List Char)
  | [] => [[]]
  | c :: rest =>
    let r := splitChar sep rest
    if c = sep then [] :: r
    else (c :: r.headD []) :: r.tail

/-- Python `s.split(sep)` for a one-character separator. -/
def pySplit (sep : Char) (s : String) : List String :=
  (splitChar sep s.data).map String.mk

/-- Python `s.split('\n')`. -/
def splitLines (s : String) : List String :=
  pySplit '\n' s

/-- Value of a digit string, most significant first. -/
def digitsToNat (l : List Char) : Nat :=
  l.foldl (fun n c => 10 * n + (c.toNat - '0'.toNat)) 0

/-- Unsigned part of Python `int(s)`: one or more decimal digits. -/
def pyIntUnsigned (l : List Char) : Option Int :=
  if l ≠ [] ∧ l.all Char.isDigit then some (digitsToNat l) else none

/-- Python `int(s)` on the decimal forms the GPU tool can emit: optional
whitespace, optional sign, digits. `none` where Python raises `ValueError`. -/
def pyInt (s : String) : Option Int :=
  match (pyStrip s).data with
  | '-' :: rest => (pyIntUnsigned rest).map (fun n => -n)
  | '+' :: rest => pyIntUnsigned rest
  | l => pyIntUnsigned l

/-- Unsigned part of Python `float(s)`: digits with an optional decimal point,
at least one digit overall. -/
def pyFloatUnsigned (l : List Char) : Option ℚ :=
  let ip := l.takeWhile Char.isDigit
  match l.dropWhile Char.isDigit with
  | [] => if ip ≠ [] then some (digitsToNat ip) else none
  | '.' :: fp =>
    if fp.all Char.isDigit ∧ (ip ≠ [] ∨ fp ≠ []) then
      some ((digitsToNat ip : ℚ) + (digitsToNat fp : ℚ) / ((10 : ℚ) ^ fp.length))
    else none
  | _ => none

/-- Python `float(s)` on the decimal forms the GPU tool can emit: optional
whitespace, optional sign, digits with optional fraction. `none` where Python
raises `ValueError`. -/
def pyFloat (s : String) : Option ℚ :=
  match (pyStrip s).data with
  | '-' :: rest => (pyFloatUnsigned rest).map (fun q => -q)
  | '+' :: rest => pyFloatUnsigned rest
  | l => pyFloatUnsigned l

/-! ## GPU probe -/

/-- Outcome of the external effects the GPU code performs:
`shutil.which('nvidia-smi')` and the three `nvidia-smi` invocations
(`--query-gpu=name`, `--query-gpu=utilization.gpu,...`,
`--query-compute-apps=pid,used_memory`). `.error` = the invocation raised. -/
structure GpuEnv where
  which : Bool
  name_query : Except Unit String
  stats_query : Except Unit String
  procs_query : Except Unit String

/-- The comprehension `[float(x) for x in parts]`: all-or-nothing, as the first failure raises. -/
def parseFloats : List String → Option (List ℚ)
  | [] => some []
  | x :: xs =>
    match pyFloat x, parseFloats xs with
    | some v, some vs => some (v :: vs)
    | _, _ => none

/-- One line of the per-process query output (lines 146–154 of `app.py`):
skip when falsy, when it does not split into exactly two fields, or when
`int`/`float` conversion raises `ValueError`. -/
def lineEntry (line : String) : Option (Int × ℚ) :=
  if line = "" then none
  else
    match pySplit (Char.ofNat 44) line with
    | [a, b] =>
      match pyInt a, pyFloat b with
      | some pid, some mem_mb => some (pid, mem_mb)
      | _, _ => none
    | _ => none

/-- The `gpu_map` built from a successful per-process query output
(lines 145–154 of `app.py`); values are the tool-reported megabyte figures. -/
def buildGpuMap (out : String) : Dict ℚ :=
  (splitLines (pyStrip out)).foldl
    (fun m line =>
      match lineEntry line with
      | some (pid, mem_mb) => dictInsert m pid mem_mb
      | none => m)
    []

/-- The `gpu_map` that one `get_processes` pass ends up with
(lines 138–156 of `app.py`). -/
def gpuProcMapOf (g : GpuEnv) : Dict ℚ :=
  if g.which then
    match g.procs_query with
    | .ok out => buildGpuMap out
    | .error _ => []
  else []

/-- The record `gpu_stats["memory"]`. -/
structure GpuMemory where
  total : ℚ
  used : ℚ
deriving DecidableEq, Repr

/-- The `gpu_stats` record of `get_system_stats`. -/
structure GpuStats where
  percent : ℚ
  name : String
  memory : GpuMemory
deriving DecidableEq, Repr

/-- Line 80 of `app.py`: the default GPU stats. -/
def gpuDefault : GpuStats :=
  { percent := 0, name := "N/A", memory := { used := 0, total := 0 } }

/-- Python `output.strip().split('\n')[0]` (the split of a string is never empty, so
the index never raises). -/
def firstLine (s : String) : String :=
  (splitLines (pyStrip s)).headD ""

/-- Lines 79–106 of `app.py`: the global GPU probe. Any raise inside the
`try` (a failed invocation, `ValueError` from `float`, `IndexError` from
`vals[i]`) leaves `gpu_stats` at its default. -/
def gpuGlobal (g : GpuEnv) : GpuStats :=
  if g.which then
    match g.name_query with
    | .error _ => gpuDefault
    | .ok name_output =>
      let gpu_name := firstLine name_output
      match g.stats_query with
      | .error _ => gpuDefault
      | .ok stats_output =>
        let line := firstLine stats_output
        match parseFloats (pySplit (Char.ofNat 44) line) with
        | none => gpuDefault
        | some vals =>
          match vals with
          | v0 :: v1 :: v2 :: _ =>
            { percent := v0, name := gpu_name,
              memory := { total := v1 * 1024 * 1024, used := v2 * 1024 * 1024 } }
          | _ => gpuDefault
  else gpuDefault

/-! ## System snapshot (`get_system_stats`, lines 68–123) -/

/-- The fields of `psutil.virtual_memory()` the code reads. -/
structure MemoryStats where
  total : Int
  available : Int
  percent : ℚ
  used : Int
deriving DecidableEq, Repr

/-- The fields of `psutil.disk_usage('/')` the code reads. -/
structure DiskStats where
  total : Int
  used : Int
  free : Int
  percent : ℚ
deriving DecidableEq, Repr

/-- Inputs of one `get_system_stats` call: the psutil readings and the GPU
environment. -/
structure SysEnv where
  cpu_percent : ℚ
  memory : MemoryStats
  disk : DiskStats
  gpu : GpuEnv

/-- The dictionary `get_system_stats` returns. -/
structure SystemStats where
  cpu : ℚ
  memory : MemoryStats
  disk : DiskStats
  gpu : GpuStats
deriving DecidableEq, Repr

/-- Lines 68–123 of `app.py`. -/
def get_system_stats (env : SysEnv) : SystemStats :=
  { cpu := env.cpu_percent, memory := env.memory, disk := env.disk,
    gpu := gpuGlobal env.gpu }

/-! ## Process sampler (`get_processes`, lines 128–209) -/

/-- Python `psutil.cpu_count() or 1`: `None` and `0` are falsy. -/
def effCpuCount : Option Nat → Nat
  | none => 1
  | some 0 => 1
  | some n => n

/-- Inputs of one `get_processes` pass: core count, `time.time()`, the GPU
environment, and the process enumeration (`none` = item raised and was
skipped). -/
structure ProcEnv where
  cpu_count : Option Nat
  current_time : ℚ
  gpu : GpuEnv
  procs : List (Option PInfo)

/-- The dict appended to `processes` for a surviving enumeration item:
`cpu_percent` normalised by core count (when not `None`), `disk_io` set to
the computed rate and `gpu_memory` to `gpu_map.get(pid, 0)`. -/
def mkOut (cc : Nat) (gpu_map : Dict ℚ) (pinfo : PInfo) (io_rate : ℚ) : ProcOut :=
  { pid := pinfo.pid, name := pinfo.name,
    cpu_percent := pinfo.cpu_percent.map (fun c => c / (cc : ℚ)),
    memory_percent := pinfo.memory_percent,
    io_counters := pinfo.io_counters,
    disk_io := io_rate,
    gpu_memory := (dictLookup gpu_map pinfo.pid).getD 0 }

/-- One iteration of the `for proc in psutil.process_iter(...)` loop
(lines 158–193 of `app.py`), acting on the pair
(`processes` so far, `io_cache` so far). -/
def stepProc (cc : Nat) (now : ℚ) (gpu_map : Dict ℚ)
    (acc : List ProcOut × IoCache) : Option PInfo → List ProcOut × IoCache
  | none => acc
  | some pinfo =>
    if isIdleName pinfo.name then acc
    else
      let (io_rate, cache') :=
        match pinfo.io_counters with
        | some io => io_rate_update acc.2 pinfo.pid (io.read_bytes + io.write_bytes) now
        | none => ((0 : ℚ), acc.2)
      (acc.1 ++ [mkOut cc gpu_map pinfo io_rate], cache')

/-- The enumeration loop followed by the cache reconciliation
(lines 158–197 of `app.py`): the `processes` list in enumeration order and
the reconciled `io_cache`. -/
def passResults (env : ProcEnv) (cache : IoCache) : List ProcOut × IoCache :=
  let cc := effCpuCount env.cpu_count
  let gpu_map := gpuProcMapOf env.gpu
  let folded := env.procs.foldl (stepProc cc env.current_time gpu_map) ([], cache)
  let current_pids := folded.1.map (fun p => p.pid)
  (folded.1, dictFilter (fun kv => current_pids.contains kv.1) folded.2)

/-- Lines 200–205 of `app.py`: `key_map`. -/
def key_map : List (String × String) :=
  [("cpu", "cpu_percent"), ("memory", "memory_percent"),
   ("disk", "disk_io"), ("gpu", "gpu_memory")]

/-- Python `key_map.get(sort_by, 'cpu_percent')`. -/
def strGetD : List (String × String) → String → String → String
  | [], _, d => d
  | (k, v) :: rest, key, d => if k = key then v else strGetD rest key d

/-- Python `p.get(sort_key) or 0`: the sort value of one process dict; a missing key
or a falsy value (`None`, `0`, `0.0`) becomes `0`. -/
def sortVal (sort_key : String) (p : ProcOut) : ℚ :=
  if sort_key = "cpu_percent" then p.cpu_percent.getD 0
  else if sort_key = "memory_percent" then p.memory_percent.getD 0
  else if sort_key = "disk_io" then p.disk_io
  else if sort_key = "gpu_memory" then p.gpu_memory
  else 0

/-- The ordering used by `processes.sort(key=..., reverse=True)`: `a` may
come before `b` iff `a`'s sort value is at least `b`'s. -/
def rKey (sort_key : String) (a b : ProcOut) : Prop :=
  sortVal sort_key b ≤ sortVal sort_key a

instance (k : String) : DecidableRel (rKey k) :=
  fun a b => inferInstanceAs (Decidable (sortVal k b ≤ sortVal k a))

instance (k : String) : IsTotal ProcOut (rKey k) :=
  ⟨fun a b => le_total (sortVal k b) (sortVal k a)⟩

instance (k : String) : IsTrans ProcOut (rKey k) :=
  ⟨fun _ _ _ h1 h2 => le_trans h2 h1⟩

/-- Lines 128–209 of `app.py`: one full `get_processes(sort_by)` pass.
Returns the value returned to the caller (top 50 after the stable
descending sort) together with the `io_cache` left behind for the next
pass. -/
def get_processes (env : ProcEnv) (cache : IoCache) (sort_by : String) :
    List ProcOut × IoCache :=
  let res := passResults env cache
  let sort_key := strGetD key_map sort_by "cpu_percent"
  ((List.insertionSort (rKey sort_key) res.1).take 50, res.2)

/-! ## `terminate_process` (lines 211–220) -/

/-- The structured result `terminate_process` returns. -/
structure TermResult where
  success : Bool
  message : String
deriving DecidableEq, Repr

/-- Outcome of `psutil.Process(pid); p.terminate()`: `.ok` = terminated,
`.error e` = some exception was raised, with `e = str(exception)`. -/
def terminate_process (pid : Int) (outcome : Except String Unit) : TermResult :=
  match outcome with
  | .ok _ => { success := true, message := "Process " ++ toString pid ++ " terminated." }
  | .error e => { success := false, message := e }

/-- Returns `true` iff processing this enumeration item writes to the cache slot of
pid `p`: a non-idle item with pid `p` whose `io_counters` are present. -/
def touchesPid (p : Int) : Option PInfo → Bool
  | none => false
  | some pinfo => pinfo.pid == p && !isIdleName pinfo.name && pinfo.io_counters.isSome

/-- A process pass whose per-process GPU query reports pid 1 using 2 MB. -/
def c2env : ProcEnv :=
  { cpu_count := some 1, current_time := 0,
    gpu := ⟨true, .ok "", .ok "", .ok "1, 2"⟩,
    procs := [some ⟨1, "a", none, none, none⟩] }

/-- A pass observing 51 distinct processes, all with I/O counters present. -/
def c3env : ProcEnv :=
  { cpu_count := some 1, current_time := 1,
    gpu := ⟨false, .error (), .error (), .error ()⟩,
    procs := (List.range 51).map (fun i => some ⟨(i : Int), "p", none, none, some ⟨0, 0⟩⟩) }

/-- A machine without the GPU tool, for the C6 witness. -/
def c6senv : SysEnv :=
  { cpu_percent := 7, memory := ⟨1, 2, 3, 4⟩, disk := ⟨5, 6, 7, 8⟩,
    gpu := ⟨false, .error (), .error (), .error ()⟩ }

/-- A pass over one process (pid 7) with absent I/O counters, for the C10
witness. -/
def c10env : ProcEnv :=
  { cpu_count := some 1, current_time := 1,
    gpu := ⟨false, .error (), .error (), .error ()⟩,
    procs := [some ⟨7, "a", none, none, none⟩] }

/-! ## Basic dictionary lemmas -/

theorem dictLookup_dictInsert_self {α : Type} (d : Dict α) (k : Int) (v : α) :
    dictLookup (dictInsert d k v) k = some v := by
  induction d with
  | nil => simp [dictInsert, dictLookup]
  | cons hd tl ih =>
    obtain ⟨k', v'⟩ := hd
    by_cases hk : k' = k
    · subst hk
      simp [dictInsert, dictLookup]
    · simp [dictInsert, dictLookup, hk, ih]

/-- The value/cache pair `io_rate_update` computes, written out. -/
theorem io_rate_update_eq (cache : IoCache) (pid total : Int) (now : ℚ) :
    io_rate_update cache pid total now =
      ((match dictLookup cache pid with
        | some prev =>
          if 0 < now - prev.time then ((total - prev.bytes : Int) : ℚ) / (now - prev.time)
          else 0
        | none => (0 : ℚ)),
       dictInsert cache pid ⟨total, now⟩) := rfl

/-! ## Lemmas about the enumeration fold -/

theorem mem_foldl_stepProc_of_mem (cc : Nat) (now : ℚ) (gpu_map : Dict ℚ) :
    ∀ (l : List (Option PInfo)) (acc : List ProcOut × IoCache) (x : ProcOut),
      x ∈ acc.1 → x ∈ (l.foldl (stepProc cc now gpu_map) acc).1
  | [], _, _, hx => hx
  | item :: rest, acc, x, hx => by
    apply mem_foldl_stepProc_of_mem cc now gpu_map rest (stepProc cc now gpu_map acc item) x
    match item with
    | none => exact hx
    | some pinfo =>
      by_cases hidle : isIdleName pinfo.name
      · simpa [stepProc, hidle] using hx
      · simp only [stepProc, hidle, Bool.false_eq_true, if_false]
        exact List.mem_append_left _ hx

/-- Every element the enumeration fold produces is either already in the
accumulator or the record built (by `mkOut`) from some non-idle enumeration
item, at some rate. -/
theorem mem_foldl_stepProc (cc : Nat) (now : ℚ) (gpu_map : Dict ℚ) :
    ∀ (l : List (Option PInfo)) (acc : List ProcOut × IoCache) (x : ProcOut),
      x ∈ (l.foldl (stepProc cc now gpu_map) acc).1 →
      x ∈ acc.1 ∨ ∃ pinfo rate, some pinfo ∈ l ∧ isIdleName pinfo.name = false
        ∧ x = mkOut cc gpu_map pinfo rate
  | [], _, _, hx => Or.inl hx
  | item :: rest, acc, x, hx => by
    rcases mem_foldl_stepProc cc now gpu_map rest (stepProc cc now gpu_map acc item) x hx with
      hstep | ⟨pinfo, rate, hmem, hidle, hout⟩
    · match item with
      | none => exact Or.inl hstep
      | some pinfo =>
        by_cases hidle : isIdleName pinfo.name
        · exact Or.inl (by simpa [stepProc, hidle] using hstep)
        · simp only [stepProc, hidle, Bool.false_eq_true, if_false] at hstep
          rcases List.mem_append.mp hstep with hacc | hnew
          · exact Or.inl hacc
          · exact Or.inr ⟨pinfo, _, List.mem_cons_self _ _,
              Bool.eq_false_iff.mpr hidle, List.mem_singleton.mp hnew⟩
    · exact Or.inr ⟨pinfo, rate, List.mem_cons_of_mem _ hmem, hidle, hout⟩

/-- A surviving enumeration item with absent I/O counters contributes the
record `mkOut … 0` (rate `0`) to the fold's output list. -/
theorem mkOut_mem_foldl (cc : Nat) (now : ℚ) (gpu_map : Dict ℚ) (pinfo : PInfo)
    (hio : pinfo.io_counters = none) (hname : isIdleName pinfo.name = false) :
    ∀ (l : List (Option PInfo)) (acc : List ProcOut × IoCache),
      some pinfo ∈ l →
      mkOut cc gpu_map pinfo 0 ∈ (l.foldl (stepProc cc now gpu_map) acc).1
  | [], _, h => absurd h (List.not_mem_nil _)
  | item :: rest, acc, h => by
    rcases List.mem_cons.mp h with heq | hmem
    · apply mem_foldl_stepProc_of_mem cc now gpu_map rest
      rw [← heq]
      simp [stepProc, hname, hio]
    · exact mkOut_mem_foldl cc now gpu_map pinfo hio hname rest
        (stepProc cc now gpu_map acc item) hmem

theorem dictLookup_dictInsert_ne {α : Type} (d : Dict α) (k p : Int) (v : α)
    (h : k ≠ p) : dictLookup (dictInsert d k v) p = dictLookup d p := by
  induction d with
  | nil => simp [dictInsert, dictLookup, h]
  | cons hd tl ih =>
    obtain ⟨k', v'⟩ := hd
    by_cases hk : k' = k
    · subst hk
      simp [dictInsert, dictLookup, h]
    · simp [dictInsert, dictLookup, hk, ih]

/-- If no enumeration item writes to pid `p`'s cache slot, the fold leaves the
lookup at `p` unchanged. -/
theorem dictLookup_foldl_stepProc (cc : Nat) (now : ℚ) (gpu_map : Dict ℚ) (p : Int) :
    ∀ (l : List (Option PInfo)) (acc : List ProcOut × IoCache),
      (∀ it ∈ l, touchesPid p it = false) →
      dictLookup (l.foldl (stepProc cc now gpu_map) acc).2 p = dictLookup acc.2 p
  | [], _, _ => rfl
  | item :: rest, acc, hall => by
    have hrest : ∀ it ∈ rest, touchesPid p it = false :=
      fun it hit => hall it (List.mem_cons_of_mem _ hit)
    rw [List.foldl_cons,
      dictLookup_foldl_stepProc cc now gpu_map p rest (stepProc cc now gpu_map acc item) hrest]
    have hitem := hall item (List.mem_cons_self _ _)
    match item with
    | none => rfl
    | some pinfo =>
      by_cases hidle : isIdleName pinfo.name
      · simp [stepProc, hidle]
      · match hioc : pinfo.io_counters with
        | none => simp [stepProc, hidle, hioc]
        | some io =>
          have hpid : pinfo.pid ≠ p := by
            simp [touchesPid, hidle, hioc] at hitem
            exact hitem
          simp only [stepProc, hidle, Bool.false_eq_true, if_false, hioc,
            io_rate_update_eq]
          exact dictLookup_dictInsert_ne _ _ _ _ hpid

/-- An entry surviving `dictFilter` satisfies the predicate and was present. -/
theorem mem_dictFilter {α : Type} (q : Int × α → Bool) (kv : Int × α) :
    ∀ d : Dict α, kv ∈ dictFilter q d → q kv = true ∧ kv ∈ d
  | [] , h => absurd h (List.not_mem_nil _)
  | kv' :: rest, h => by
    by_cases hq : q kv' = true
    · rw [dictFilter, if_pos hq] at h
      rcases List.mem_cons.mp h with heq | hmem
      · subst heq
        exact ⟨hq, List.mem_cons_self _ _⟩
      · have := mem_dictFilter q kv rest hmem
        exact ⟨this.1, List.mem_cons_of_mem _ this.2⟩
    · rw [dictFilter, if_neg hq] at h
      have := mem_dictFilter q kv rest h
      exact ⟨this.1, List.mem_cons_of_mem _ this.2⟩

/-- Filtering to keys the predicate keeps does not change a lookup at a key
the predicate keeps (for every value). -/
theorem dictLookup_dictFilter {α : Type} (q : Int × α → Bool) (p : Int)
    (hq : ∀ v, q (p, v) = true) :
    ∀ d : Dict α, dictLookup (dictFilter q d) p = dictLookup d p
  | [] => rfl
  | (k, v) :: rest => by
    by_cases hk : k = p
    · subst hk
      rw [dictFilter, if_pos (hq v)]
      simp [dictLookup]
    · by_cases hkq : q (k, v) = true
      · rw [dictFilter, if_pos hkq]
        simp [dictLookup, hk, dictLookup_dictFilter q p hq rest]
      · rw [dictFilter, if_neg hkq]
        simp [dictLookup, hk, dictLookup_dictFilter q p hq rest]

/-! ## Claims -/

/-- Claim C1: For a pid already present in the rate cache, an observation at a
strictly later timestamp returns exactly
`(current_bytes - previous_bytes) / (current_timestamp - previous_timestamp)`
(negative whenever the byte counter went down), an observation at an equal or
earlier timestamp returns `0`, and in every case the cache entry for the pid
is replaced by the current bytes and timestamp. -/
theorem c1_rate_cache_subsequent (cache : IoCache) (pid total : Int) (now : ℚ)
    (prev : CacheEntry) (h : dictLookup cache pid = some prev) :
    (prev.time < now →
      (io_rate_update cache pid total now).1 =
        ((total - prev.bytes : Int) : ℚ) / (now - prev.time))
    ∧ (now ≤ prev.time → (io_rate_update cache pid total now).1 = 0)
    ∧ (prev.time < now → total < prev.bytes → (io_rate_update cache pid total now).1 < 0)
    ∧ dictLookup (io_rate_update cache pid total now).2 pid = some ⟨total, now⟩ := by
  rw [io_rate_update_eq, h]
  refine ⟨fun hlt => ?_, fun hle => ?_, fun hlt hbytes => ?_, ?_⟩
  · simp [sub_pos.mpr hlt]
  · simp [not_lt.mpr (sub_nonpos.mpr hle)]
  · have hpos : (0 : ℚ) < now - prev.time := sub_pos.mpr hlt
    have hneg : ((total - prev.bytes : Int) : ℚ) < 0 := by
      exact_mod_cast Int.sub_neg_of_lt hbytes
    simpa [hpos] using div_neg_of_neg_of_pos hneg hpos
  · exact dictLookup_dictInsert_self cache pid ⟨total, now⟩

/-- Witness for C1 at a concrete input: cache holds pid 100 with 1000 bytes at
time 0; observing 2000 bytes at time 1 yields rate `1000` and the entry is
updated to `(2000, 1)`. -/
theorem c1_witness :
    (io_rate_update [((100 : Int), ⟨1000, 0⟩)] 100 2000 1).1 = 1000
    ∧ dictLookup (io_rate_update [((100 : Int), ⟨1000, 0⟩)] 100 2000 1).2 100 =
        some ⟨2000, 1⟩ := by
  have h := c1_rate_cache_subsequent [((100 : Int), ⟨1000, 0⟩)] 100 2000 1 ⟨1000, 0⟩
    (by decide)
  refine ⟨?_, h.2.2.2⟩
  rw [h.1 (by norm_num)]
  norm_num

/-- Claim C4: For a pid not present in the rate cache, the first rate
computation returns `0` and afterwards the cache holds the observed cumulative
bytes and timestamp for that pid. -/
theorem c4_first_observation (cache : IoCache) (pid total : Int) (now : ℚ)
    (h : dictLookup cache pid = none) :
    (io_rate_update cache pid total now).1 = 0
    ∧ dictLookup (io_rate_update cache pid total now).2 pid = some ⟨total, now⟩ := by
  rw [io_rate_update_eq, h]
  exact ⟨rfl, dictLookup_dictInsert_self cache pid ⟨total, now⟩⟩

/-- Witness for C4 at a concrete input: empty cache, pid 100 observed with
1000 bytes at time 0 gives rate `0` and cache entry `(1000, 0)`. -/
theorem c4_witness :
    (io_rate_update [] 100 1000 0).1 = 0
    ∧ dictLookup (io_rate_update [] 100 1000 0).2 100 = some ⟨1000, 0⟩ :=
  c4_first_observation [] 100 1000 0 rfl

/-- Claim C2 fails on the code: with the GPU tool reporting 2 MB for pid 1, the
sample attached to pid 1 carries `gpu_memory = 2` — the raw megabyte figure —
not `2 * 1024 * 1024`; `get_processes` never applies the byte conversion (the
conversion exists only in `get_system_stats`). -/
theorem c2_gpu_megabytes_counterexample :
    ((get_processes c2env [] "cpu").1.map (fun p => p.gpu_memory)) = [2]
    ∧ ¬ ((2 : ℚ) = 2 * (1024 * 1024)) := by
  constructor
  · decide
  · norm_num

/-- Claim C2 amended: The GPU memory value attached to every returned sample is
`gpu_map.get(pid, 0)` — the tool-reported *megabyte* figure for its pid,
merged as-is with no byte conversion — and a pid absent from the map gets 0. -/
theorem c2_gpu_attach_amended (env : ProcEnv) (cache : IoCache) (sort_by : String)
    (x : ProcOut) (hx : x ∈ (get_processes env cache sort_by).1) :
    x.gpu_memory = (dictLookup (gpuProcMapOf env.gpu) x.pid).getD 0 := by
  have hx1 : x ∈ (passResults env cache).1 := by
    have hx' : x ∈ (List.insertionSort
        (rKey (strGetD key_map sort_by "cpu_percent")) (passResults env cache).1).take 50 := hx
    exact (List.mem_insertionSort _).mp (List.mem_of_mem_take hx')
  have hx2 : x ∈ (env.procs.foldl
      (stepProc (effCpuCount env.cpu_count) env.current_time (gpuProcMapOf env.gpu))
      ([], cache)).1 := hx1
  rcases mem_foldl_stepProc _ _ _ _ _ _ hx2 with h | ⟨pinfo, rate, _, _, rfl⟩
  · simp at h
  · rfl

/-- Witness for C2 amended: in the concrete pass above, the returned sample
for pid 1 indeed carries the map's figure for its pid. -/
theorem c2_witness :
    (⟨1, "a", none, none, none, 0, 2⟩ : ProcOut).gpu_memory =
      (dictLookup (gpuProcMapOf c2env.gpu) (1 : Int)).getD 0 :=
  c2_gpu_attach_amended c2env [] "cpu" ⟨1, "a", none, none, none, 0, 2⟩ (by decide)

/-- Claim C3 fails on the code: the cache is reconciled against the pids
*observed* by the pass (line 196, before the top-50 truncation), not against
the returned list. With 51 observed processes, pid 50 keeps its cache entry
although it is not among the 50 returned pids. -/
theorem c3_cache_subset_counterexample :
    (dictLookup (get_processes c3env [] "cpu").2 50).isSome = true
    ∧ ((get_processes c3env [] "cpu").1.map (fun p => p.pid)).contains 50 = false := by
  decide

/-- Claim C3 amended: After a pass, every key of the rate cache is among the
pids the pass *observed* (its `processes` list before sorting and truncation);
a pid observed beyond the top-50 cutoff may keep its entry even though it is
absent from the returned list. -/
theorem c3_cache_subset_amended (env : ProcEnv) (cache : IoCache) (sort_by : String)
    (kv : Int × CacheEntry) (hkv : kv ∈ (get_processes env cache sort_by).2) :
    kv.1 ∈ (passResults env cache).1.map (fun p => p.pid) := by
  have hkv' : kv ∈ dictFilter
      (fun kv => ((passResults env cache).1.map (fun p => p.pid)).contains kv.1)
      (env.procs.foldl
        (stepProc (effCpuCount env.cpu_count) env.current_time (gpuProcMapOf env.gpu))
        ([], cache)).2 := hkv
  have h := (mem_dictFilter _ _ _ hkv').1
  exact List.mem_of_elem_eq_true h

/-- Witness for C3 amended: in the 51-process pass, the cache key 50 is among
the observed pids. -/
theorem c3_witness :
    ((50 : Int), (⟨0, 1⟩ : CacheEntry)).1 ∈
      (passResults c3env []).1.map (fun p => p.pid) :=
  c3_cache_subset_amended c3env [] "cpu" ((50 : Int), (⟨0, 1⟩ : CacheEntry)) (by decide)

/-- What `get_processes` returns, in terms of its pieces. -/
theorem get_processes_eq (env : ProcEnv) (cache : IoCache) (sort_by : String) :
    get_processes env cache sort_by =
      ((List.insertionSort (rKey (strGetD key_map sort_by "cpu_percent"))
          (passResults env cache).1).take 50,
        (passResults env cache).2) := rfl

/-- Claim C5: For every call and every sort key, `get_processes` returns at most
50 entries, sorted descending on the selected field (`rKey` compares by
`sortVal`, which reads the field selected by the sort key and treats a
missing/`None` value as `0`). -/
theorem c5_sorted_bounded (env : ProcEnv) (cache : IoCache) (sort_by : String) :
    (get_processes env cache sort_by).1.length ≤ 50
    ∧ (get_processes env cache sort_by).1.Pairwise
        (rKey (strGetD key_map sort_by "cpu_percent")) := by
  rw [get_processes_eq]
  constructor
  · exact List.length_take_le 50 _
  · exact List.Pairwise.sublist (List.take_sublist 50 _)
      (List.sorted_insertionSort (rKey (strGetD key_map sort_by "cpu_percent"))
        (passResults env cache).1)

/-- Claim C7: Every sort key outside `{cpu, memory, disk, gpu}` behaves
exactly like `cpu`: `key_map.get` falls back to `'cpu_percent'`, and nothing
else in the pass reads `sort_by`, so the returned list and the resulting
cache agree. -/
theorem c7_unknown_sort_key (env : ProcEnv) (cache : IoCache) (s : String)
    (h1 : s ≠ "cpu") (h2 : s ≠ "memory") (h3 : s ≠ "disk") (h4 : s ≠ "gpu") :
    get_processes env cache s = get_processes env cache "cpu" := by
  have hkey : strGetD key_map s "cpu_percent" = "cpu_percent" := by
    simp [key_map, strGetD, Ne.symm h1, Ne.symm h2, Ne.symm h3, Ne.symm h4]
  rw [get_processes_eq, get_processes_eq, hkey,
    show strGetD key_map "cpu" "cpu_percent" = "cpu_percent" from rfl]

/-- Witness for C7: at the unknown key `"nonsense"`, a concrete pass returns
exactly what it returns for `"cpu"`. -/
theorem c7_witness :
    get_processes ⟨some 1, 0, ⟨false, .error (), .error (), .error ()⟩,
        [some ⟨1, "a", some 4, none, none⟩]⟩ [] "nonsense" =
      get_processes ⟨some 1, 0, ⟨false, .error (), .error (), .error ()⟩,
        [some ⟨1, "a", some 4, none, none⟩]⟩ [] "cpu" :=
  c7_unknown_sort_key _ _ "nonsense" (by decide) (by decide) (by decide) (by decide)

/-- Claim C8: No entry returned by `get_processes` is the OS idle
pseudo-process: every returned entry's name differs from both
`"System Idle Process"` and `"Idle"`, whatever the sort key and inputs. -/
theorem c8_no_idle (env : ProcEnv) (cache : IoCache) (sort_by : String) (x : ProcOut)
    (hx : x ∈ (get_processes env cache sort_by).1) :
    x.name ≠ "System Idle Process" ∧ x.name ≠ "Idle" := by
  rw [get_processes_eq] at hx
  have hx1 : x ∈ (passResults env cache).1 :=
    (List.mem_insertionSort _).mp (List.mem_of_mem_take hx)
  have hx2 : x ∈ (env.procs.foldl
      (stepProc (effCpuCount env.cpu_count) env.current_time (gpuProcMapOf env.gpu))
      ([], cache)).1 := hx1
  rcases mem_foldl_stepProc _ _ _ _ _ _ hx2 with h | ⟨pinfo, rate, _, hidle, rfl⟩
  · simp at h
  · simp only [isIdleName, Bool.or_eq_false_iff, beq_eq_false_iff_ne] at hidle
    simpa [mkOut] using hidle

/-- Witness for C8: a pass over a single process named `"x"` returns that
process, and the theorem yields its name is no idle name. -/
theorem c8_witness :
    (⟨1, "x", none, none, none, 0, 0⟩ : ProcOut).name ≠ "System Idle Process"
    ∧ (⟨1, "x", none, none, none, 0, 0⟩ : ProcOut).name ≠ "Idle" :=
  c8_no_idle
    ⟨some 1, 0, ⟨false, .error (), .error (), .error ()⟩,
      [some ⟨1, "x", none, none, none⟩]⟩
    [] "cpu" ⟨1, "x", none, none, none, 0, 0⟩ (by decide)

/-- Claim C9: `terminate_process` always returns a structured result: on a
successful termination `{success := true}` with the standard message, and when
the attempt raised (pid missing, access denied, …) `{success := false}`
carrying the exception text — never a propagated exception. -/
theorem c9_terminate_structured (pid : Int) (outcome : Except String Unit) :
    terminate_process pid outcome =
        { success := true, message := "Process " ++ toString pid ++ " terminated." }
    ∨ ∃ e, outcome = Except.error e
        ∧ terminate_process pid outcome = { success := false, message := e } := by
  cases outcome with
  | ok u => exact Or.inl rfl
  | error e => exact Or.inr ⟨e, rfl, rfl⟩

/-- Folding lines that all fail to parse leaves the map unchanged. -/
theorem foldl_lineEntry_none :
    ∀ (ls : List String) (m : Dict ℚ), (∀ line ∈ ls, lineEntry line = none) →
      ls.foldl (fun m line =>
        match lineEntry line with
        | some (pid, mem_mb) => dictInsert m pid mem_mb
        | none => m) m = m
  | [], _, _ => rfl
  | line :: rest, m, hall => by
    rw [List.foldl_cons, hall line (List.mem_cons_self _ _)]
    exact foldl_lineEntry_none rest m
      (fun l hl => hall l (List.mem_cons_of_mem _ hl))

/-- Claim C6: GPU telemetry is best-effort: when the tool is absent, when an
invocation raises, or when its output is malformed (a non-numeric field, or
fewer than the three expected columns), `get_system_stats` still returns,
carrying the default `{percent 0, name "N/A", memory 0/0}` GPU record and the
untouched CPU/memory/disk readings; and the per-process map degrades to the
empty map, so every sample of a `get_processes` pass gets `gpu_memory = 0`. -/
theorem c6_gpu_degrade (senv : SysEnv) (g : GpuEnv) (env : ProcEnv)
    (cache : IoCache) (sort_by : String) :
    (senv.gpu.which = false →
      get_system_stats senv =
        { cpu := senv.cpu_percent, memory := senv.memory, disk := senv.disk,
          gpu := gpuDefault })
    ∧ (∀ e, senv.gpu.name_query = .error e →
      get_system_stats senv =
        { cpu := senv.cpu_percent, memory := senv.memory, disk := senv.disk,
          gpu := gpuDefault })
    ∧ (∀ e, senv.gpu.stats_query = .error e →
      get_system_stats senv =
        { cpu := senv.cpu_percent, memory := senv.memory, disk := senv.disk,
          gpu := gpuDefault })
    ∧ (∀ out, senv.gpu.stats_query = .ok out →
      parseFloats (pySplit (Char.ofNat 44) (firstLine out)) = none →
      get_system_stats senv =
        { cpu := senv.cpu_percent, memory := senv.memory, disk := senv.disk,
          gpu := gpuDefault })
    ∧ (∀ out vals, senv.gpu.stats_query = .ok out →
      parseFloats (pySplit (Char.ofNat 44) (firstLine out)) = some vals →
      vals.length < 3 →
      get_system_stats senv =
        { cpu := senv.cpu_percent, memory := senv.memory, disk := senv.disk,
          gpu := gpuDefault })
    ∧ (g.which = false → gpuProcMapOf g = [])
    ∧ (∀ e, g.procs_query = .error e → gpuProcMapOf g = [])
    ∧ (∀ out, (∀ line ∈ splitLines (pyStrip out), lineEntry line = none) →
      buildGpuMap out = [])
    ∧ (env.gpu.which = false →
      ∀ x, x ∈ (get_processes env cache sort_by).1 → x.gpu_memory = 0) := by
  refine ⟨fun hw => ?_, fun e he => ?_, fun e he => ?_, fun out hok hpf => ?_,
    fun out vals hok hpf hlen => ?_, fun hw => ?_, fun e he => ?_,
    fun out hall => ?_, fun hw x hx => ?_⟩
  · simp [get_system_stats, gpuGlobal, hw]
  · cases hw : senv.gpu.which <;>
      simp [get_system_stats, gpuGlobal, hw, he]
  · cases hw : senv.gpu.which <;>
      cases hn : senv.gpu.name_query <;>
        simp [get_system_stats, gpuGlobal, hw, hn, he]
  · cases hw : senv.gpu.which <;>
      cases hn : senv.gpu.name_query <;>
        simp [get_system_stats, gpuGlobal, hw, hn, hok, hpf]
  · rcases vals with _ | ⟨v0, _ | ⟨v1, _ | ⟨v2, tl⟩⟩⟩
    · cases hw : senv.gpu.which <;>
        cases hn : senv.gpu.name_query <;>
          simp [get_system_stats, gpuGlobal, hw, hn, hok, hpf]
    · cases hw : senv.gpu.which <;>
        cases hn : senv.gpu.name_query <;>
          simp [get_system_stats, gpuGlobal, hw, hn, hok, hpf]
    · cases hw : senv.gpu.which <;>
        cases hn : senv.gpu.name_query <;>
          simp [get_system_stats, gpuGlobal, hw, hn, hok, hpf]
    · exact absurd hlen (by simp)
  · simp [gpuProcMapOf, hw]
  · cases hw : g.which <;> simp [gpuProcMapOf, hw, he]
  · exact foldl_lineEntry_none _ [] hall
  · have hmap : gpuProcMapOf env.gpu = [] := by simp [gpuProcMapOf, hw]
    have hx1 : x ∈ (passResults env cache).1 := by
      have hx' : x ∈ (List.insertionSort
          (rKey (strGetD key_map sort_by "cpu_percent")) (passResults env cache).1).take 50 := hx
      exact (List.mem_insertionSort _).mp (List.mem_of_mem_take hx')
    have hx2 : x ∈ (env.procs.foldl
        (stepProc (effCpuCount env.cpu_count) env.current_time (gpuProcMapOf env.gpu))
        ([], cache)).1 := hx1
    rcases mem_foldl_stepProc _ _ _ _ _ _ hx2 with h | ⟨pinfo, rate, _, _, rfl⟩
    · simp at h
    · simp [mkOut, hmap, dictLookup]

/-- Witness for C6: with the tool absent, the snapshot carries the default GPU
record next to the untouched readings, and the process map is empty. -/
theorem c6_witness :
    get_system_stats c6senv =
      { cpu := 7, memory := ⟨1, 2, 3, 4⟩, disk := ⟨5, 6, 7, 8⟩, gpu := gpuDefault }
    ∧ gpuProcMapOf c6senv.gpu = [] := by
  have h := c6_gpu_degrade c6senv c6senv.gpu ⟨none, 0, c6senv.gpu, []⟩ [] "cpu"
  exact ⟨h.1 rfl, h.2.2.2.2.2.1 rfl⟩

/-- Claim C10: A live, non-idle process enumerated with absent (falsy)
`io_counters` is reported with `disk_io = 0` (its sample is `mkOut … 0`), and
an existing cache entry for its pid survives the whole pass untouched: the
loop never writes its slot and reconciliation keeps it because the pid was
observed. A later observation that does read counters therefore computes its
rate against this old baseline. -/
theorem c10_no_counters_frame (env : ProcEnv) (cache : IoCache) (sort_by : String)
    (pinfo : PInfo) (entry : CacheEntry) (total : Int) (nxt : ℚ)
    (hmem : some pinfo ∈ env.procs)
    (hio : pinfo.io_counters = none)
    (hname : isIdleName pinfo.name = false)
    (hcache : dictLookup cache pinfo.pid = some entry)
    (huntouched : ∀ it ∈ env.procs, touchesPid pinfo.pid it = false)
    (hnxt : entry.time < nxt) :
    mkOut (effCpuCount env.cpu_count) (gpuProcMapOf env.gpu) pinfo 0 ∈
        (passResults env cache).1
    ∧ (mkOut (effCpuCount env.cpu_count) (gpuProcMapOf env.gpu) pinfo 0).disk_io = 0
    ∧ dictLookup (get_processes env cache sort_by).2 pinfo.pid = some entry
    ∧ (io_rate_update (get_processes env cache sort_by).2 pinfo.pid total nxt).1 =
        ((total - entry.bytes : Int) : ℚ) / (nxt - entry.time) := by
  have hout : mkOut (effCpuCount env.cpu_count) (gpuProcMapOf env.gpu) pinfo 0 ∈
      (env.procs.foldl
        (stepProc (effCpuCount env.cpu_count) env.current_time (gpuProcMapOf env.gpu))
        ([], cache)).1 :=
    mkOut_mem_foldl _ env.current_time _ pinfo hio hname env.procs ([], cache) hmem
  have hfold : dictLookup (env.procs.foldl
      (stepProc (effCpuCount env.cpu_count) env.current_time (gpuProcMapOf env.gpu))
      ([], cache)).2 pinfo.pid = some entry := by
    rw [dictLookup_foldl_stepProc _ env.current_time _ pinfo.pid env.procs ([], cache)
      huntouched]
    exact hcache
  have hpid : ((env.procs.foldl
      (stepProc (effCpuCount env.cpu_count) env.current_time (gpuProcMapOf env.gpu))
      ([], cache)).1.map (fun p => p.pid)).contains pinfo.pid = true :=
    List.elem_eq_true_of_mem (List.mem_map.mpr ⟨_, hout, rfl⟩)
  have heq : (get_processes env cache sort_by).2 =
      dictFilter
        (fun kv => ((env.procs.foldl
          (stepProc (effCpuCount env.cpu_count) env.current_time (gpuProcMapOf env.gpu))
          ([], cache)).1.map (fun p => p.pid)).contains kv.1)
        (env.procs.foldl
          (stepProc (effCpuCount env.cpu_count) env.current_time (gpuProcMapOf env.gpu))
          ([], cache)).2 := rfl
  have hcache2 : dictLookup (get_processes env cache sort_by).2 pinfo.pid = some entry := by
    rw [heq, dictLookup_dictFilter _ pinfo.pid (fun _ => hpid)]
    exact hfold
  refine ⟨hout, rfl, hcache2, ?_⟩
  rw [io_rate_update_eq, hcache2]
  simp [sub_pos.mpr hnxt]

/-- Witness for C10: the cached baseline `(100 bytes, time 0)` of pid 7
survives a counter-less pass, and a later observation of 300 bytes at time 2
yields rate `(300-100)/(2-0) = 100` against that old baseline. -/
theorem c10_witness :
    dictLookup (get_processes c10env [((7 : Int), ⟨100, 0⟩)] "cpu").2 7 = some ⟨100, 0⟩
    ∧ (io_rate_update (get_processes c10env [((7 : Int), ⟨100, 0⟩)] "cpu").2 7 300 2).1
        = 100 := by
  have h := c10_no_counters_frame c10env [((7 : Int), ⟨100, 0⟩)] "cpu"
    ⟨7, "a", none, none, none⟩ ⟨100, 0⟩ 300 2
    (by decide) rfl rfl (by decide) (by decide) (by norm_num)
  have hrate := h.2.2.2
  norm_num at hrate
  exact ⟨h.2.2.1, hrate⟩

end PyDash
